import Mathlib

/-!
Shallow embedding of the EnOcean cover integration (`cover.py`).

The embedding models the `EnOceanCover` class: its mutable state
(`_attr_is_closed`, `_attr_is_opening`, `_attr_is_closing`,
`_attr_current_cover_position`), the six command methods that build and
send outbound telegrams (`open_cover`, `close_cover`, `stop_cover`,
`open_cover_tilt`, `close_cover_tilt`, `stop_cover_tilt` and their
helpers `press_up_button`, `press_down_button`, `release_button`), and
the inbound decoder `value_changed`.

Python lists of byte values are modelled as `List Nat`.  Python's
`data[i]` indexing, which raises `IndexError` when the index is out of
range, is modelled with `List.get?` and the `Except Unit` monad
(`Except.error ()` stands for a raised exception); Python's slice
`data[5:8]`, which never raises, is modelled by `pySlice`.  Each state
mutation path ends in a call to `schedule_update_ha_state`; the decoder
therefore additionally returns a `Bool` recording whether that
state-change notification was emitted.
-/

/-- The mutable per-device state of `EnOceanCover`: `is_closed` mirrors
`_attr_is_closed` (`none` = unknown), `is_opening`/`is_closing` mirror
`_attr_is_opening`/`_attr_is_closing`, and `position` mirrors
`_attr_current_cover_position` (`none` = unknown).  All four start as
`none` (`_attr_is_closed` is set to `None` in `__init__`; the others are
the host base-class defaults). -/
structure CoverState where
  is_closed : Option Bool
  is_opening : Option Bool
  is_closing : Option Bool
  position : Option Nat
deriving DecidableEq, Repr

/-- The state of a freshly constructed `EnOceanCover`. -/
def initState : CoverState := ⟨none, none, none, none⟩

/-- One outbound telegram handed to `send_command(data, optional, packet_type)`. -/
structure Telegram where
  data : List Nat
  optional : List Nat
  packetType : Nat
deriving DecidableEq, Repr

/-- The immutable configuration of an `EnOceanCover` (`_sender_id`,
`dev_id`, `_reverse`) together with its mutable state. -/
structure Cover where
  sender_id : List Nat
  dev_id : List Nat
  reverse : Bool
  state : CoverState
deriving DecidableEq, Repr

/-- Python's slice `l[a:b]` for non-negative bounds: never raises,
silently truncates at the end of the list. -/
def pySlice (l : List Nat) (a b : Nat) : List Nat :=
  (l.drop a).take (b - a)

/-- `press_up_button`: `data = [0xF6, 0x70] + sender_id + [0x30]`,
`optional = [0x03] + dev_id + [0x40]`, sent with packet type `0x01`. -/
def press_up_button (c : Cover) : Telegram :=
  ⟨[0xF6, 0x70] ++ c.sender_id ++ [0x30], [0x03] ++ c.dev_id ++ [0x40], 0x01⟩

/-- `press_down_button`: `data = [0xF6, 0x50] + sender_id + [0x30]`,
`optional = [0x03] + dev_id + [0x40]`, sent with packet type `0x01`. -/
def press_down_button (c : Cover) : Telegram :=
  ⟨[0xF6, 0x50] ++ c.sender_id ++ [0x30], [0x03] ++ c.dev_id ++ [0x40], 0x01⟩

/-- `release_button`: `data = [0xF6, 0x00] + sender_id + [0x20]`,
`optional = [0x03] + dev_id + [0x40]`, sent with packet type `0x01`. -/
def release_button (c : Cover) : Telegram :=
  ⟨[0xF6, 0x00] ++ c.sender_id ++ [0x20], [0x03] ++ c.dev_id ++ [0x40], 0x01⟩

/-- `open_cover`: set `_attr_is_opening = True`, then send press
(up, or down when reversed) followed by release.  Returns the updated
device and the outbound telegrams in send order. -/
def open_cover (c : Cover) : Cover × List Telegram :=
  ({c with state := {c.state with is_opening := some true}},
   [(if c.reverse then press_down_button c else press_up_button c), release_button c])

/-- `close_cover`: set `_attr_is_closing = True`, then send press
(down, or up when reversed) followed by release. -/
def close_cover (c : Cover) : Cover × List Telegram :=
  ({c with state := {c.state with is_closing := some true}},
   [(if c.reverse then press_up_button c else press_down_button c), release_button c])

/-- `stop_cover`: clear both motion flags, then send press-down followed
by release (independent of orientation). -/
def stop_cover (c : Cover) : Cover × List Telegram :=
  ({c with state := {c.state with is_closing := none, is_opening := none}},
   [press_down_button c, release_button c])

/-- `open_cover_tilt`: set `_attr_is_opening = True`, then send the open
press/release micro-sequence twice. -/
def open_cover_tilt (c : Cover) : Cover × List Telegram :=
  ({c with state := {c.state with is_opening := some true}},
   [(if c.reverse then press_down_button c else press_up_button c), release_button c,
    (if c.reverse then press_down_button c else press_up_button c), release_button c])

/-- `close_cover_tilt`: set `_attr_is_closing = True`, then send the
close press/release micro-sequence twice. -/
def close_cover_tilt (c : Cover) : Cover × List Telegram :=
  ({c with state := {c.state with is_closing := some true}},
   [(if c.reverse then press_up_button c else press_down_button c), release_button c,
    (if c.reverse then press_up_button c else press_down_button c), release_button c])

/-- `stop_cover_tilt`: identical body to `stop_cover`. -/
def stop_cover_tilt (c : Cover) : Cover × List Telegram :=
  ({c with state := {c.state with is_closing := none, is_opening := none}},
   [press_down_button c, release_button c])

/-- The six public command methods of `EnOceanCover`. -/
inductive Cmd
  | openCover
  | closeCover
  | stopCover
  | openCoverTilt
  | closeCoverTilt
  | stopCoverTilt
deriving DecidableEq, Repr

/-- Dispatch a command to its method. -/
def cmdRun : Cmd → Cover → Cover × List Telegram
  | .openCover, c => open_cover c
  | .closeCover, c => close_cover c
  | .stopCover, c => stop_cover c
  | .openCoverTilt, c => open_cover_tilt c
  | .closeCoverTilt, c => close_cover_tilt c
  | .stopCoverTilt, c => stop_cover_tilt c

/-- `value_changed(packet)`: decode one inbound packet, given the
device's `dev_id` and the packet's `data` bytes.  `Except.error ()`
models a raised `IndexError` (`packet.data[0]` or `packet.data[1]` out
of range); `.ok (s, b)` returns the new state `s` and whether
`schedule_update_ha_state` was called (`b`). -/
def value_changed (dev_id : List Nat) (data : List Nat) (s : CoverState) :
    Except Unit (CoverState × Bool) :=
  match data.get? 0 with
  | none => .error ()
  | some d0 =>
    if d0 = 0xD2 ∧ pySlice data 5 8 = dev_id then
      match data.get? 1 with
      | none => .error ()
      | some val =>
        if val = 0x7F then
          .ok ({s with is_closed := none}, true)
        else
          -- shutter has stopped: both motion flags cleared
          if val = 0x00 then
            .ok ({s with is_closing := none, is_opening := none, position := some 0, is_closed := some false}, true)
          else if val = 0x64 then
            .ok ({s with is_closing := none, is_opening := none, position := some 100, is_closed := some true}, true)
          else
            .ok ({s with is_closing := none, is_opening := none, position := some val}, true)
    else
      .ok (s, false)

/-- The state after feeding one packet to `value_changed`: on a raised
exception the mutable state is unchanged (every read in `value_changed`
happens before the first mutation). -/
def decodeState (dev_id : List Nat) (data : List Nat) (s : CoverState) : CoverState :=
  match value_changed dev_id data s with
  | .ok (s2, _) => s2
  | .error _ => s

/-- One external event acting on a device: a command call or an inbound
packet with the given data bytes. -/
inductive Event
  | cmd (k : Cmd)
  | packet (data : List Nat)
deriving DecidableEq, Repr

/-- Apply one event to the device (outbound telegrams discarded). -/
def step : Event → Cover → Cover
  | .cmd k, c => (cmdRun k c).1
  | .packet d, c => {c with state := decodeState c.dev_id d c.state}

/-- Apply a sequence of events in order. -/
def run : List Event → Cover → Cover
  | [], c => c
  | e :: es, c => run es (step e c)

/-- The position, when known, lies in `[0, 100]`. -/
def posInv (s : CoverState) : Prop := s.position.getD 0 ≤ 100

instance (s : CoverState) : Decidable (posInv s) :=
  inferInstanceAs (Decidable (s.position.getD 0 ≤ 100))

/-- The packet's value byte (`data[1]`), when present, lies in
`{0, ..., 100} ∪ \x7b0x7F\x7d`. -/
def valueByteOk (data : List Nat) : Prop :=
  (data.get? 1).getD 0 ≤ 100 ∨ data.get? 1 = some 0x7F

instance (data : List Nat) : Decidable (valueByteOk data) := by
  unfold valueByteOk; infer_instance

/-- An event is in range when it is a command, or a packet whose value
byte (when present) is in `{0, ..., 100} ∪ \x7b0x7F\x7d`. -/
def eventOk : Event → Prop
  | .cmd _ => True
  | .packet d => valueByteOk d

instance : (e : Event) → Decidable (eventOk e)
  | .cmd _ => isTrue trivial
  | .packet d => inferInstanceAs (Decidable (valueByteOk d))

/-- The well-formedness predicate of claim C2 for one outbound telegram
of device `c`. -/
def telegramWellFormed (c : Cover) (t : Telegram) : Prop :=
  t.packetType = 0x01 ∧ t.optional = [0x03] ++ c.dev_id ++ [0x40] ∧
  ∃ sub stat, t.data = [0xF6, sub] ++ c.sender_id ++ [stat] ∧
    ((sub = 0x70 ∧ stat = 0x30) ∨ (sub = 0x50 ∧ stat = 0x30) ∨ (sub = 0x00 ∧ stat = 0x20))

lemma telegramWellFormed_up (c : Cover) : telegramWellFormed c (press_up_button c) :=
  ⟨rfl, rfl, 0x70, 0x30, rfl, Or.inl ⟨rfl, rfl⟩⟩

lemma telegramWellFormed_down (c : Cover) : telegramWellFormed c (press_down_button c) :=
  ⟨rfl, rfl, 0x50, 0x30, rfl, Or.inr (Or.inl ⟨rfl, rfl⟩)⟩

lemma telegramWellFormed_release (c : Cover) : telegramWellFormed c (release_button c) :=
  ⟨rfl, rfl, 0x00, 0x20, rfl, Or.inr (Or.inr ⟨rfl, rfl⟩)⟩

lemma mem_cmdRun (k : Cmd) (c : Cover) (t : Telegram) (ht : t ∈ (cmdRun k c).2) :
    t = press_up_button c ∨ t = press_down_button c ∨ t = release_button c := by
  cases k <;> cases hr : c.reverse <;>
    simp [cmdRun, open_cover, close_cover, stop_cover, open_cover_tilt, close_cover_tilt,
      stop_cover_tilt, hr] at ht <;>
    tauto

/-- Claim C2: every outbound telegram produced by any of the six commands has
`data = [0xF6, subcommand] ++ senderId ++ [statusByte]` and
`optional = [0x03] ++ deviceId ++ [0x40]`, is sent with packet type `0x01`,
and pairs subcommand `0x70` or `0x50` (press) with status `0x30`, and
subcommand `0x00` (release) with status `0x20`. -/
theorem command_telegram_shape (k : Cmd) (c : Cover) (t : Telegram)
    (ht : t ∈ (cmdRun k c).2) : telegramWellFormed c t := by
  rcases mem_cmdRun k c t ht with rfl | rfl | rfl
  · exact telegramWellFormed_up c
  · exact telegramWellFormed_down c
  · exact telegramWellFormed_release c

/-- Witness for C2: the first telegram of `open_cover` on a concrete device. -/
theorem command_telegram_shape_witness :
    telegramWellFormed ⟨[1, 2, 3, 4], [5, 6, 7], false, initState⟩
      (press_up_button ⟨[1, 2, 3, 4], [5, 6, 7], false, initState⟩) :=
  command_telegram_shape .openCover ⟨[1, 2, 3, 4], [5, 6, 7], false, initState⟩
    (press_up_button ⟨[1, 2, 3, 4], [5, 6, 7], false, initState⟩) (by decide)

/-- Claim C3: a packet whose first data byte is not `0xD2`, or whose data
bytes 5..7 differ from this device's `dev_id`, leaves the state unchanged
and emits no state-change notification. -/
theorem irrelevant_packet_no_change (dev_id data : List Nat) (s : CoverState) (d0 : Nat)
    (h0 : data.get? 0 = some d0) (hirr : ¬(d0 = 0xD2 ∧ pySlice data 5 8 = dev_id)) :
    value_changed dev_id data s = .ok (s, false) := by
  unfold value_changed
  simp only [h0]
  exact if_neg hirr

/-- Witness for C3: a concrete packet with a wrong first byte is ignored. -/
theorem irrelevant_packet_no_change_witness :
    value_changed [1, 2, 3] [0xA5, 2, 0, 0, 0, 1, 2, 3] initState = .ok (initState, false) :=
  irrelevant_packet_no_change [1, 2, 3] [0xA5, 2, 0, 0, 0, 1, 2, 3] initState 0xA5
    (by decide) (by decide)

/-- Claim C4: a relevant packet with value byte `0x7F` sets `is_closed` to
unknown and leaves the position and both motion flags exactly as they were,
for every prior state. -/
theorem decode_moving_sentinel (dev_id data : List Nat) (s : CoverState)
    (h0 : data.get? 0 = some 0xD2) (haddr : pySlice data 5 8 = dev_id)
    (h1 : data.get? 1 = some 0x7F) :
    value_changed dev_id data s = .ok ({s with is_closed := none}, true) := by
  unfold value_changed
  simp only [h0, h1]
  simp [haddr]

/-- Witness for C4: a concrete moving-sentinel packet. -/
theorem decode_moving_sentinel_witness :
    value_changed [1, 2, 3] [0xD2, 0x7F, 0, 0, 0, 1, 2, 3]
        ⟨some true, some true, none, some 40⟩ =
      .ok (⟨none, some true, none, some 40⟩, true) :=
  decode_moving_sentinel [1, 2, 3] [0xD2, 0x7F, 0, 0, 0, 1, 2, 3]
    ⟨some true, some true, none, some 40⟩ (by decide) (by decide) (by decide)

/-- Claim C5 (code bug): on a packet whose data field is empty, the read
`packet.data[0]` raises `IndexError` instead of ignoring the packet. -/
theorem decode_empty_data_raises :
    value_changed [1, 2, 3] [] initState = Except.error () := rfl

/-- Claim C6: for every device configuration, `open_cover` with
`reverse = true` sends exactly the telegram sequence of `close_cover`
with `reverse = false` and vice versa, and `stop_cover` sends the same
sequence for both orientations. -/
theorem orientation_symmetry (sender dev : List Nat) (s : CoverState) :
    (cmdRun .openCover ⟨sender, dev, true, s⟩).2 = (cmdRun .closeCover ⟨sender, dev, false, s⟩).2 ∧
    (cmdRun .closeCover ⟨sender, dev, true, s⟩).2 = (cmdRun .openCover ⟨sender, dev, false, s⟩).2 ∧
    (cmdRun .stopCover ⟨sender, dev, true, s⟩).2 = (cmdRun .stopCover ⟨sender, dev, false, s⟩).2 :=
  ⟨rfl, rfl, rfl⟩

/-- Claim C7: `close_cover_tilt` with normal orientation sends exactly 4
telegrams, press down / release / press down / release, whose subcommand
bytes (`data[1]`) are `0x50, 0x00, 0x50, 0x00`. -/
theorem close_tilt_sequence (sender dev : List Nat) (s : CoverState) :
    (cmdRun .closeCoverTilt ⟨sender, dev, false, s⟩).2 =
      [press_down_button ⟨sender, dev, false, s⟩, release_button ⟨sender, dev, false, s⟩,
       press_down_button ⟨sender, dev, false, s⟩, release_button ⟨sender, dev, false, s⟩] ∧
    ((cmdRun .closeCoverTilt ⟨sender, dev, false, s⟩).2).length = 4 ∧
    ((cmdRun .closeCoverTilt ⟨sender, dev, false, s⟩).2).map (fun t => t.data.get? 1) =
      [some 0x50, some 0x00, some 0x50, some 0x00] :=
  ⟨rfl, rfl, rfl⟩

/-- Claim C8 (code bug): `open_cover` does not clear `_attr_is_closing`,
so after `close_cover` followed by `open_cover` both motion flags are
set at once, contradicting the single-valued `motionState` of the spec. -/
theorem open_after_close_both_flags_set :
    ((cmdRun .openCover (cmdRun .closeCover ⟨[0, 0, 0, 0], [1, 2, 3], false, initState⟩).1).1).state.is_opening = some true ∧
    ((cmdRun .openCover (cmdRun .closeCover ⟨[0, 0, 0, 0], [1, 2, 3], false, initState⟩).1).1).state.is_closing = some true :=
  ⟨rfl, rfl⟩

/-- Claim C10: decoding the same packet twice in succession leaves the
same device state as decoding it once, for every packet and prior state. -/
theorem decode_idempotent (dev_id data : List Nat) (s : CoverState) :
    decodeState dev_id data (decodeState dev_id data s) = decodeState dev_id data s := by
  unfold decodeState value_changed
  cases h0 : data.get? 0 with
  | none => rfl
  | some d0 =>
    by_cases hc : d0 = 0xD2 ∧ pySlice data 5 8 = dev_id
    · cases h1 : data.get? 1 with
      | none => simp [hc]
      | some val =>
        by_cases h7 : val = 0x7F
        · simp [hc, h7]
        · by_cases hz : val = 0x00
          · simp [hc, h7, hz]
          · by_cases hh : val = 0x64
            · simp [hc, h7, hz, hh]
            · simp [hc, h7, hz, hh]
    · simp [hc]

/-- Counterexample to claim C1 as stated: a relevant packet with
intermediate value byte `0x01` leaves `is_closed` at its prior value
`some true` (closed) instead of setting it to unknown. -/
theorem decode_intermediate_keeps_closed_flag_cex :
    value_changed [1, 2, 3] [0xD2, 1, 0, 0, 0, 1, 2, 3]
        ⟨some true, none, none, some 100⟩ =
      .ok (⟨some true, none, none, some 1⟩, true) ∧
    (⟨some true, none, none, some 1⟩ : CoverState).is_closed ≠ none :=
  ⟨rfl, by decide⟩

/-- Claim C1 (amended): a relevant packet with value byte
`val ∈ {0, ..., 100}` sets `position := val`, clears both motion flags,
and sets `is_closed` to open at `val = 0`, to closed at `val = 100`, and
leaves it unchanged for every other such `val`. -/
theorem decode_stopped_position_update (dev_id data : List Nat) (s : CoverState) (val : Nat)
    (h0 : data.get? 0 = some 0xD2) (haddr : pySlice data 5 8 = dev_id)
    (h1 : data.get? 1 = some val) (hle : val ≤ 100) :
    value_changed dev_id data s =
      .ok ({s with
              is_closed := if val = 0 then some false else if val = 100 then some true else s.is_closed
              is_opening := none
              is_closing := none
              position := some val}, true) := by
  have h7 : ¬(val = 0x7F) := by omega
  unfold value_changed
  simp only [h0, h1]
  rw [if_pos ⟨trivial, haddr⟩]
  by_cases hz : val = 0x00
  · simp [h7, hz]
  · by_cases hh : val = 0x64
    · simp [h7, hz, hh]
    · simp [h7, hz, hh]

/-- Witness for C1 (amended): a concrete intermediate-position packet. -/
theorem decode_stopped_position_update_witness :
    value_changed [1, 2, 3] [0xD2, 42, 9, 9, 9, 1, 2, 3] initState =
      .ok (⟨none, none, none, some 42⟩, true) :=
  decode_stopped_position_update [1, 2, 3] [0xD2, 42, 9, 9, 9, 1, 2, 3] initState 42
    (by decide) (by decide) (by decide) (by decide)

/-- Counterexample to claim C9 as stated: a relevant packet with value
byte `200` drives the position to `200`, outside `[0, 100]`, in one step
from the initial state. -/
theorem position_exceeds_range_cex :
    (run [Event.packet [0xD2, 200, 0, 0, 0, 1, 2, 3]]
        ⟨[0, 0, 0, 0], [1, 2, 3], false, initState⟩).state.position = some 200 ∧
    ¬ posInv (run [Event.packet [0xD2, 200, 0, 0, 0, 1, 2, 3]]
        ⟨[0, 0, 0, 0], [1, 2, 3], false, initState⟩).state :=
  ⟨rfl, by decide⟩

lemma posInv_step (e : Event) (c : Cover) (he : eventOk e) (h : posInv c.state) :
    posInv (step e c).state := by
  cases e with
  | cmd k => cases k <;> exact h
  | packet d =>
    show posInv (decodeState c.dev_id d c.state)
    unfold decodeState value_changed
    cases h0 : d.get? 0 with
    | none => exact h
    | some d0 =>
      by_cases hc : d0 = 0xD2 ∧ pySlice d 5 8 = c.dev_id
      · cases h1 : d.get? 1 with
        | none => simpa [hc] using h
        | some val =>
          by_cases h7 : val = 0x7F
          · simpa [hc, h7, posInv] using h
          · by_cases hz : val = 0x00
            · simp [hc, h7, hz, posInv]
            · by_cases hh : val = 0x64
              · simp [hc, h7, hz, hh, posInv]
              · have hv : val ≤ 100 := by
                  cases he with
                  | inl hle => rw [h1] at hle; simpa using hle
                  | inr h127 => rw [h1] at h127; exact absurd (Option.some.inj h127) h7
                simp [hc, h7, hz, hh, posInv, hv]
      · simpa [hc] using h

/-- Claim C9 (amended): starting from any state whose position (when
known) is in `[0, 100]`, every sequence of commands and inbound packets
whose value bytes lie in `{0, ..., 100} ∪ {0x7F}` keeps the position
(when known) in `[0, 100]`. -/
theorem position_range_invariant : ∀ (evs : List Event) (c : Cover),
    (∀ e ∈ evs, eventOk e) → posInv c.state → posInv (run evs c).state
  | [], _, _, h => h
  | e :: es, c, hok, h =>
    position_range_invariant es (step e c)
      (fun x hx => hok x (List.mem_cons_of_mem e hx))
      (posInv_step e c (hok e (List.mem_cons_self e es)) h)

/-- Witness for C9 (amended): a concrete run with a command, an
in-range position packet, a moving-sentinel packet and a stop. -/
theorem position_range_invariant_witness :
    posInv (run [Event.cmd .openCover, Event.packet [0xD2, 0x32, 0, 0, 0, 1, 2, 3],
        Event.packet [0xD2, 0x7F, 0, 0, 0, 1, 2, 3], Event.cmd .stopCover]
        ⟨[0, 0, 0, 0], [1, 2, 3], false, initState⟩).state :=
  position_range_invariant
    [Event.cmd .openCover, Event.packet [0xD2, 0x32, 0, 0, 0, 1, 2, 3],
     Event.packet [0xD2, 0x7F, 0, 0, 0, 1, 2, 3], Event.cmd .stopCover]
    ⟨[0, 0, 0, 0], [1, 2, 3], false, initState⟩ (by decide) (by decide)
